import Mathlib

/-!
Shallow embedding of the per-window state management core of
`wezterm-gui/src/gui/termwindow/mod.rs`: the viewport controller
(`set_viewport`, `scroll_*`), the overlay registry (`assign_overlay`,
`assign_overlay_for_pane`), the selection engine entry points, the periodic
maintenance tick, and the geometry engine (`apply_dimensions`, `resize`).

Modelling conventions:
* `StableRowIndex` is Rust `isize`; it is modelled as `Int`, with the
  explicit `saturating_add` used by the source modelled as saturation at the
  `isize` bounds.
* `u16` and `usize` quantities are modelled as `Nat`; wherever the source
  performs `u16` arithmetic or an `as u16` cast, the model reduces modulo
  `2^16` via `u16`.
* The external collaborators (multiplexer, render surface, window system,
  font system) are modelled as effect logs or input parameters: calls such as
  `Mux::remove_pane`, `window.invalidate()`, `tab.resize(..)`,
  `window.set_inner_size(..)` and overlay `viewport_changed` notifications
  are recorded in the returned result structures rather than performed.
-/

namespace TermWindow

/-! ## Basic data model -/

/-- Truncation to 16 bits: models Rust `u16` arithmetic / `as u16` casts. -/
def u16 (n : Nat) : Nat := n % 65536

/-- Rust `usize::MAX` (64-bit target). -/
def USIZE_MAX : Nat := 2 ^ 64 - 1

/-- Rust `isize::MAX` (64-bit target). -/
def ISIZE_MAX : Int := 2 ^ 63 - 1

/-- Rust `isize::MIN` (64-bit target). -/
def ISIZE_MIN : Int := -(2 ^ 63)

/-- Models `isize::saturating_add` on `StableRowIndex` values. -/
def saturating_add (a b : Int) : Int := min (max (a + b) ISIZE_MIN) ISIZE_MAX

/-- The kind of pane object an overlay handle points at.  The source stores
`Rc<dyn Pane>` trait objects and distinguishes the search and copy-mode
overlays via `downcast_ref::<SearchOverlay>()` / `downcast_ref::<CopyOverlay>()`;
every other pane object behaves uniformly at this layer. -/
inductive PaneKind
  | search
  | copy
  | plain
deriving DecidableEq

/-- An overlay handle: the `Rc<dyn Pane>` is modelled by the `pane_id()` it
reports plus its downcast kind. -/
structure OverlayPane where
  pane_id : Nat
  kind : PaneKind
deriving DecidableEq

/-- Mirrors `mux::renderable::RenderableDimensions` as used by this file:
`physical_top` and `scrollback_top` are `StableRowIndex`, `viewport_rows`
is `usize`. -/
structure RenderableDimensions where
  physical_top : Int
  scrollback_top : Int
  viewport_rows : Nat
deriving DecidableEq

/-- The per-pane slot of `pane_state: HashMap<PaneId, PaneState>` restricted
to the fields this development needs (`viewport` and `overlay`; the
`selection` field is modelled separately for the maintenance tick). -/
structure PaneState where
  viewport : Option Int
  overlay : Option OverlayPane
deriving DecidableEq

/-- Default-constructed `PaneState` (`or_insert_with(PaneState::default)`). -/
def PaneState.default : PaneState := { viewport := none, overlay := none }

/-- The per-tab slot of `tab_state: HashMap<TabId, TabState>`. -/
structure TabState where
  overlay : Option OverlayPane
deriving DecidableEq

/-- Default-constructed `TabState` (`or_insert_with(TabState::default)`). -/
def TabState.default : TabState := { overlay := none }

/-! ## Viewport controller -/

/-- Result of a viewport-controller operation: the new pane slot, the
`viewport_changed` notifications delivered to a search/copy overlay, and the
number of `window.invalidate()` calls issued. -/
structure ViewportEffects where
  state : PaneState
  notifications : List (Option Int)
  invalidates : Nat
deriving DecidableEq

/-- The position-resolution step at the head of `set_viewport`
(mod.rs lines 1673-1683): a requested position at or past `physical_top`
drops out of scrolling mode (`None`); otherwise it is clamped up to
`scrollback_top`. -/
def resolve_position (position : Option Int) (dims : RenderableDimensions) : Option Int :=
  match position with
  | some pos =>
    if pos ≥ dims.physical_top then
      none
    else
      some (max pos dims.scrollback_top)
  | none => none

/-- `TermWindow::set_viewport` (mod.rs lines 1667-1700).  On an effective
change it stores the resolved position, notifies a search or copy overlay via
`viewport_changed`, and invalidates the window; otherwise it does nothing. -/
def set_viewport (st : PaneState) (position : Option Int)
    (dims : RenderableDimensions) : ViewportEffects :=
  let pos := resolve_position position dims
  if pos ≠ st.viewport then
    { state := { st with viewport := pos }
      notifications :=
        match st.overlay with
        | some overlay =>
          match overlay.kind with
          | .search => [pos]
          | .copy => [pos]
          | .plain => []
        | none => []
      invalidates := 1 }
  else
    { state := st, notifications := [], invalidates := 0 }

/-- `TermWindow::get_viewport` (mod.rs lines 1663-1665). -/
def get_viewport (st : PaneState) : Option Int := st.viewport

/-- `TermWindow::scroll_to_bottom` (mod.rs lines 1833-1835): writes the
`viewport` field of the pane state directly, without going through
`set_viewport` (so no notification and no invalidate is produced). -/
def scroll_to_bottom (st : PaneState) : ViewportEffects :=
  { state := { st with viewport := none }, notifications := [], invalidates := 0 }

/-- `TermWindow::scroll_by_line` (mod.rs lines 1024-1039): calls
`set_viewport` at current-viewport-or-physical-top saturating-plus `amount`,
then unconditionally invalidates the window. -/
def scroll_by_line (st : PaneState) (amount : Int)
    (dims : RenderableDimensions) : ViewportEffects :=
  let position := saturating_add ((get_viewport st).getD dims.physical_top) amount
  let r := set_viewport st (some position) dims
  { r with invalidates := r.invalidates + 1 }

/-- `TermWindow::scroll_by_page` (mod.rs lines 1007-1022): like
`scroll_by_line` but stepping by `amount * viewport_rows`. -/
def scroll_by_page (st : PaneState) (amount : Int)
    (dims : RenderableDimensions) : ViewportEffects :=
  let position :=
    saturating_add ((get_viewport st).getD dims.physical_top)
      (amount * (dims.viewport_rows : Int))
  let r := set_viewport st (some position) dims
  { r with invalidates := r.invalidates + 1 }

/-! ## Overlay registry -/

/-- Log of the calls this core makes into the multiplexer; here only
`Mux::remove_pane(pane_id)`, in call order. -/
structure MuxLog where
  removed_panes : List Nat
deriving DecidableEq

/-- `TermWindow::assign_overlay` (mod.rs lines 1971-1976): installs `overlay`
in the tab slot via `Option::replace`; if a prior overlay was installed it is
released to the multiplexer with `remove_pane(prior.pane_id())`.  The
trailing `update_title()` call only refreshes window chrome and is not part
of the modelled state. -/
def assign_overlay (ts : TabState) (mux : MuxLog) (overlay : OverlayPane) :
    TabState × MuxLog :=
  match ts.overlay with
  | some prior =>
    ({ overlay := some overlay },
      { removed_panes := mux.removed_panes ++ [prior.pane_id] })
  | none => ({ overlay := some overlay }, mux)

/-- `TermWindow::assign_overlay_for_pane` (mod.rs lines 1964-1969): same
replace-then-release discipline on the pane slot. -/
def assign_overlay_for_pane (ps : PaneState) (mux : MuxLog)
    (overlay : OverlayPane) : PaneState × MuxLog :=
  match ps.overlay with
  | some prior =>
    ({ ps with overlay := some overlay },
      { removed_panes := mux.removed_panes ++ [prior.pane_id] })
  | none => ({ ps with overlay := some overlay }, mux)

/-- A sequence of `assign_overlay` calls on the same tab id. -/
def assign_overlay_seq (ts : TabState) (mux : MuxLog) :
    List OverlayPane → TabState × MuxLog
  | [] => (ts, mux)
  | o :: os =>
    let r := assign_overlay ts mux o
    assign_overlay_seq r.1 r.2 os

/-- A sequence of `assign_overlay_for_pane` calls on the same pane id. -/
def assign_overlay_for_pane_seq (ps : PaneState) (mux : MuxLog) :
    List OverlayPane → PaneState × MuxLog
  | [] => (ps, mux)
  | o :: os =>
    let r := assign_overlay_for_pane ps mux o
    assign_overlay_for_pane_seq r.1 r.2 os

/-- The pane ids of the currently installed overlay of a tab slot, as a list
(empty or a singleton). -/
def installed_tab (ts : TabState) : List Nat :=
  match ts.overlay with
  | some o => [o.pane_id]
  | none => []

/-- The pane ids of the currently installed overlay of a pane slot. -/
def installed_pane (ps : PaneState) : List Nat :=
  match ps.overlay with
  | some o => [o.pane_id]
  | none => []

/-! ## Selection engine entry points -/

/-- Mirrors `gui::selection::SelectionCoordinate`: `x` is a `usize` column,
`y` a `StableRowIndex`. -/
structure SelectionCoordinate where
  x : Nat
  y : Int
deriving DecidableEq

/-- Mirrors `gui::selection::SelectionRange`.  The source's second field is
named `end`, a reserved word in Lean; it is named `finish` here. -/
structure SelectionRange where
  start : SelectionCoordinate
  finish : SelectionCoordinate
deriving DecidableEq

/-- Mirrors `gui::selection::Selection`: the optional anchor and the optional
resolved range. -/
structure Selection where
  start : Option SelectionCoordinate
  range : Option SelectionRange
deriving DecidableEq

/-- Modelled from the spec: `SelectionRange::rows` lives in
`gui/selection.rs`, which is not under `src/`.  Per the spec a range
normalizes so that its rows run top-to-bottom regardless of drag direction;
the row span is every row between the two endpoints' rows, inclusive. -/
def SelectionRange.rows (r : SelectionRange) : List Int :=
  let lo := min r.start.y r.finish.y
  let hi := max r.start.y r.finish.y
  (List.range (hi - lo + 1).toNat).map (fun i => lo + i)

/-- Modelled from the spec: `SelectionRange::line_around` lives in
`gui/selection.rs`, which is not under `src/`.  Per the spec, line selections
snap both endpoints to the line's boundaries: the snapped start is the first
column (column 0) of the coordinate's row and the snapped end is the last
column of that row. -/
def line_around (c : SelectionCoordinate) : SelectionRange :=
  { start := { x := 0, y := c.y }, finish := { x := USIZE_MAX, y := c.y } }

/-- Modelled from the spec: `Selection::begin` lives in `gui/selection.rs`,
which is not under `src/`.  Per the spec, Cell mode starts an open-ended
anchor at the coordinate with no resolved range yet. -/
def Selection.begin (c : SelectionCoordinate) : Selection :=
  { start := some c, range := none }

/-- Mirrors `config::keyassignment::SelectionMode`. -/
inductive SelectionMode
  | Cell
  | Word
  | Line
  | SemanticZone
deriving DecidableEq

/-- `TermWindow::select_text_at_mouse_cursor` (mod.rs lines 1794-1825).
`word_around` and `zone_around` resolve unit-aligned ranges from pane
content (`gui/selection.rs` + pane queries, external to this file), so they
are passed in as functions.  The result pairs the new selection with the
number of `window.invalidate()` calls issued. -/
def select_text_at_mouse_cursor (mode : SelectionMode)
    (coord : SelectionCoordinate)
    (word_around zone_around : SelectionCoordinate → SelectionRange)
    (_sel : Selection) : Selection × Nat :=
  match mode with
  | .Line =>
    let start := coord
    let selection_range := line_around start
    ({ start := some start, range := some selection_range }, 1)
  | .Word =>
    let selection_range := word_around coord
    ({ start := some selection_range.start, range := some selection_range }, 1)
  | .SemanticZone =>
    let selection_range := zone_around coord
    ({ start := some selection_range.start, range := some selection_range }, 1)
  | .Cell => (Selection.begin coord, 1)

/-! ## Maintenance loop -/

/-- One entry of `get_panes_to_render()` as seen by the maintenance tick,
together with the results of the external pane-content queries the tick
makes: `kind` is the downcast result on `pos.pane`, `shape_blinking` is
`effective_shape(..).is_blinking()`, `blink_elapsed` is the comparison of
`now - last_blink_paint` against the configured blink interval, `dirty` is
`get_dirty_lines(visible_range)` for the pane's current viewport window, and
`selection` is this window's stored selection for `pos.pane.pane_id()`. -/
structure RenderedPane where
  pane_id : Nat
  is_active : Bool
  kind : PaneKind
  shape_blinking : Bool
  blink_elapsed : Bool
  dirty : List Int
  selection : Selection
deriving DecidableEq

/-- Inputs of one `periodic_window_maintenance` tick. -/
structure TickState where
  /-- `config.cursor_blink_rate`. -/
  cursor_blink_rate : Nat
  /-- `self.focused.is_some()`. -/
  focused : Bool
  /-- `self.window.is_some()`. -/
  window_present : Bool
  /-- Whether `self.config.generation() != configuration().generation()`,
  i.e. whether `check_for_config_reload` runs `config_was_reloaded`. -/
  config_gen_changed : Bool
  /-- Whether, inside a reload's `update_title()`, the freshly computed
  `TabBarState` differs from the stored one (an extra invalidate). -/
  tab_bar_changed : Bool
  /-- `get_panes_to_render()` plus the per-pane query results. -/
  panes : List RenderedPane
  /-- `mux_window.check_and_reset_invalidated()` (false also covers the case
  that the mux window no longer exists). -/
  mux_invalidated : Bool
deriving DecidableEq

/-- The blink condition of the tick (mod.rs lines 565-578): blinking is
permitted, the pane is active, the window is focused, the effective cursor
shape blinks, and the blink interval has elapsed. -/
def blink_marks (st : TickState) (p : RenderedPane) : Bool :=
  st.cursor_blink_rate ≠ 0 && p.is_active && st.focused
    && p.shape_blinking && p.blink_elapsed

/-- The dirty-line handling for one rendered pane (mod.rs lines 581-616):
when the pane has dirty rows and is neither the search overlay nor the
copy-mode overlay, the selection is cleared (`range.take(); start.take()`)
exactly when some selection row is dirty. -/
def pane_tick (p : RenderedPane) : RenderedPane :=
  if p.dirty.isEmpty then p
  else if p.kind = .search ∨ p.kind = .copy then p
  else
    let clear_selection :=
      match p.selection.range with
      | some selection_range =>
        (SelectionRange.rows selection_range).any (fun row => decide (row ∈ p.dirty))
      | none => false
    if clear_selection then
      { p with selection := { start := none, range := none } }
    else p

/-- The `needs_invalidate` flag accumulated over the tick (blink check,
dirty-line check, multiplexer invalidated-flag check). -/
def needs_invalidate (st : TickState) : Bool :=
  st.panes.any (fun p => blink_marks st p || !p.dirty.isEmpty)
    || st.mux_invalidated

/-- The `window.invalidate()` calls issued directly by
`config_was_reloaded` (mod.rs lines 649-697) when the tick's
`check_for_config_reload` fires: `update_title` (reached through
`apply_dimensions`) invalidates when the computed tab-bar state changed, and
`config_was_reloaded` itself unconditionally invalidates at the end when the
window handle is present.  The tab-bar-visibility-flip recursion of
`update_title` back into `config_was_reloaded` is outside this model. -/
def reload_invalidates (st : TickState) : Nat :=
  if st.config_gen_changed then
    if st.window_present then (if st.tab_bar_changed then 1 else 0) + 1 else 0
  else 0

/-- Result of one maintenance tick. -/
structure TickResult where
  /-- Whether the tick closed the window (no panes left to render). -/
  closed : Bool
  /-- The rendered panes with their updated selections. -/
  panes : List RenderedPane
  /-- Total number of `window.invalidate()` calls issued during the tick. -/
  invalidates : Nat
deriving DecidableEq

/-- `TermWindow::periodic_window_maintenance` (mod.rs lines 543-632):
config-reload check first, then close-if-empty, then the per-pane
blink/dirty loop, then the multiplexer invalidated-flag check, and finally a
single `invalidate` if any step set `needs_invalidate` and the window handle
is present. -/
def periodic_window_maintenance (st : TickState) : TickResult :=
  let reload := reload_invalidates st
  if st.panes.isEmpty then
    { closed := true, panes := [], invalidates := reload }
  else
    { closed := false
      panes := st.panes.map pane_tick
      invalidates :=
        reload + (if needs_invalidate st && st.window_present then 1 else 0) }

/-- A concrete rendered pane used to evaluate the maintenance-tick theorems:
an ordinary (non-overlay) pane with dirty row 2 and a selection spanning
rows 1-3. -/
def sample_dirty_pane : RenderedPane :=
  { pane_id := 9, is_active := true, kind := .plain, shape_blinking := false,
    blink_elapsed := false, dirty := [2],
    selection :=
      { start := some { x := 1, y := 1 },
        range := some
          { start := { x := 1, y := 1 },
            finish := { x := 4, y := 3 } } } }

/-- A concrete tick input containing `sample_dirty_pane`, with no config
reload pending. -/
def sample_tick : TickState :=
  { cursor_blink_rate := 0, focused := false, window_present := true,
    config_gen_changed := false, tab_bar_changed := false,
    panes := [sample_dirty_pane], mux_invalidated := false }

/-- The same tick input during a config reload (the generation comparison in
`check_for_config_reload` fired; the reload did not change the tab bar). -/
def sample_reload_tick : TickState :=
  { sample_tick with config_gen_changed := true }

/-! ## Geometry engine -/

/-- Mirrors `::window::Dimensions` (`pixel_width`, `pixel_height`, `dpi`,
all `usize`). -/
structure Dimensions where
  pixel_width : Nat
  pixel_height : Nat
  dpi : Nat
deriving DecidableEq

/-- Mirrors `portable_pty::PtySize` (all fields `u16`). -/
structure PtySize where
  rows : Nat
  cols : Nat
  pixel_width : Nat
  pixel_height : Nat
deriving DecidableEq

/-- Mirrors `RowsAndCols` (mod.rs lines 69-73). -/
structure RowsAndCols where
  rows : Nat
  cols : Nat
deriving DecidableEq

/-- The slice of `RenderMetrics` this file reads: `cell_size.width` and
`cell_size.height` (positive `isize` values, modelled as `Nat`). -/
structure RenderMetrics where
  cell_width : Nat
  cell_height : Nat
deriving DecidableEq

/-- The configuration fields the geometry engine reads. -/
structure GeomConfig where
  padding_left : Nat
  padding_top : Nat
  padding_right : Nat
  padding_bottom : Nat
  enable_scroll_bar : Bool
deriving DecidableEq

/-- The `TermWindow` fields the geometry engine reads and writes. -/
structure GeomState where
  dimensions : Dimensions
  terminal_size : PtySize
  render_metrics : RenderMetrics
  show_tab_bar : Bool
  config : GeomConfig
  /-- `self.render_state.is_some()`. -/
  render_state_present : Bool
deriving DecidableEq

/-- `effective_right_padding` (mod.rs lines 358-364): when the scroll bar is
enabled and no explicit right padding is configured, the effective right
padding is one cell width (cast `as u16`). -/
def effective_right_padding (config : GeomConfig) (render_metrics : RenderMetrics) : Nat :=
  if config.enable_scroll_bar && config.padding_right = 0 then
    u16 render_metrics.cell_width
  else
    config.padding_right

/-- The tab-bar row reservation: `if self.show_tab_bar { 1 } else { 0 }`. -/
def tab_bar_rows (st : GeomState) : Nat := if st.show_tab_bar then 1 else 0

/-- The scale-preserving branch of `apply_dimensions` (mod.rs lines
1415-1440): holds terminal rows/cols fixed and derives new window pixel
dimensions from the (possibly new) cell metrics.  All arithmetic is `u16`
arithmetic in the source. -/
def scale_size_dims (st : GeomState) (dimensions : Dimensions)
    (cell_dims : RowsAndCols) : PtySize × Dimensions :=
  let size : PtySize :=
    { rows := u16 cell_dims.rows
      cols := u16 cell_dims.cols
      pixel_height := u16 (u16 cell_dims.rows * u16 st.render_metrics.cell_height)
      pixel_width := u16 (u16 cell_dims.cols * u16 st.render_metrics.cell_width) }
  let rows := u16 (size.rows + tab_bar_rows st)
  let cols := size.cols
  let pixel_height :=
    u16 (u16 (rows * u16 st.render_metrics.cell_height)
      + u16 (st.config.padding_top + st.config.padding_bottom))
  let pixel_width :=
    u16 (u16 (cols * u16 st.render_metrics.cell_width)
      + u16 (st.config.padding_left + effective_right_padding st.config st.render_metrics))
  (size,
    { pixel_width := pixel_width
      pixel_height := pixel_height
      dpi := dimensions.dpi })

/-- The window-size-driven branch of `apply_dimensions` (mod.rs lines
1441-1462): subtracts padding from the new pixel dimensions, floors to whole
rows/cols by the current cell pixel size, and reserves a row for the tab bar.
The `usize` subtractions are saturating; the `PtySize` fields are `as u16`
casts. -/
def window_size_dims (st : GeomState) (dimensions : Dimensions) : PtySize × Dimensions :=
  let avail_width := dimensions.pixel_width
    - u16 (st.config.padding_left + effective_right_padding st.config st.render_metrics)
  let avail_height := dimensions.pixel_height
    - u16 (st.config.padding_top + st.config.padding_bottom)
  let rows := avail_height / st.render_metrics.cell_height - tab_bar_rows st
  let cols := avail_width / st.render_metrics.cell_width
  let size : PtySize :=
    { rows := u16 rows
      cols := u16 cols
      pixel_height := u16 avail_height
      pixel_width := u16 avail_width }
  (size, dimensions)

/-- Result of `apply_dimensions`: the updated window state, the `PtySize`
pushed to every tab of the mux window via `tab.resize(size)`, and the
speculative `window.set_inner_size` request (issued only in the
scale-preserving case and only when it was not cancelled). -/
structure ApplyDimensionsResult where
  state : GeomState
  tab_resize : PtySize
  set_inner_size : Option (Nat × Nat)
deriving DecidableEq

/-- `TermWindow::apply_dimensions` (mod.rs lines 1396-1500).  `advise_ok` is
the outcome of the external render surface's
`advise_of_window_size_change`: on failure the stored pixel dimensions are
restored, the stored terminal size is left unchanged, and the speculative
inner resize is suppressed (`scale_changed_cells.take()`); the computed size
is still pushed to every tab, and `update_title()` (window chrome only) runs
either way. -/
def apply_dimensions (st : GeomState) (dimensions : Dimensions)
    (scale_changed_cells : Option RowsAndCols) (advise_ok : Bool) :
    ApplyDimensionsResult :=
  let orig_dimensions := st.dimensions
  let st1 := { st with dimensions := dimensions }
  let sd :=
    match scale_changed_cells with
    | some cell_dims => scale_size_dims st1 dimensions cell_dims
    | none => window_size_dims st1 dimensions
  let size := sd.1
  let dims := sd.2
  let post :=
    if st1.render_state_present then
      if advise_ok then
        ({ st1 with terminal_size := size }, scale_changed_cells)
      else
        ({ st1 with dimensions := orig_dimensions },
          (none : Option RowsAndCols))
    else
      (st1, scale_changed_cells)
  { state := post.1
    tab_resize := size
    set_inner_size :=
      match post.2 with
      | some _ => some (dims.pixel_width, dims.pixel_height)
      | none => none }

/-- `TermWindow::current_cell_dimensions` (mod.rs lines 1502-1507). -/
def current_cell_dimensions (st : GeomState) : RowsAndCols :=
  { rows := st.terminal_size.rows, cols := st.terminal_size.cols }

/-- `TermWindow::apply_scale_change` (mod.rs lines 1352-1394) recomputes the
font metrics.  The font system (`FontConfiguration`, `RenderMetrics::new`,
and the degenerate-font-size rejection) is external to this file, so the
resulting metrics are passed in as a parameter. -/
def apply_scale_change (st : GeomState) (new_metrics : RenderMetrics) : GeomState :=
  { st with render_metrics := new_metrics }

/-- `TermWindow::scaling_changed` (mod.rs lines 1510-1523) as invoked from the
`resize` callback, where the passed font scale is the current font scale, so
the `scale_changed` test reduces to the DPI comparison. -/
def scaling_changed (st : GeomState) (dimensions : Dimensions)
    (new_metrics : RenderMetrics) (advise_ok : Bool) : ApplyDimensionsResult :=
  let scale_changed := dimensions.dpi ≠ st.dimensions.dpi
  if scale_changed then
    let cell_dims := current_cell_dimensions st
    apply_dimensions (apply_scale_change st new_metrics) dimensions
      (some cell_dims) advise_ok
  else
    apply_dimensions st dimensions none advise_ok

/-- Result of the `resize` window callback: `tab_resize` is `none` when no
resize was propagated at all. -/
structure ResizeResult where
  state : GeomState
  tab_resize : Option PtySize
  set_inner_size : Option (Nat × Nat)
deriving DecidableEq

/-- The `resize` window callback (mod.rs lines 222-234): a reported zero
pixel width or height (e.g. a minimized window on Windows) returns
immediately; otherwise the event is routed to `scaling_changed` at the
current font scale. -/
def resize (st : GeomState) (dimensions : Dimensions)
    (new_metrics : RenderMetrics) (advise_ok : Bool) : ResizeResult :=
  if dimensions.pixel_width = 0 || dimensions.pixel_height = 0 then
    { state := st, tab_resize := none, set_inner_size := none }
  else
    let r := scaling_changed st dimensions new_metrics advise_ok
    { state := r.state
      tab_resize := some r.tab_resize
      set_inner_size := r.set_inner_size }

/-- A concrete geometry state: 8x16 pixel cells, no padding, no scroll bar,
no tab bar, live render surface, 800x600 window holding a 100x37 terminal. -/
def sample_geom : GeomState :=
  { dimensions := { pixel_width := 800, pixel_height := 600, dpi := 96 },
    terminal_size := { rows := 37, cols := 100, pixel_width := 800, pixel_height := 592 },
    render_metrics := { cell_width := 8, cell_height := 16 },
    show_tab_bar := false,
    config :=
      { padding_left := 0, padding_top := 0, padding_right := 0,
        padding_bottom := 0, enable_scroll_bar := false },
    render_state_present := true }

/-! ## General helper lemmas -/

theorem u16_eq_of_lt {n : Nat} (h : n < 65536) : u16 n = n := Nat.mod_eq_of_lt h

/-- Truncated product of a `u16`-cast factor: when the true product fits in
16 bits, the `u16` arithmetic computes it exactly. -/
theorem u16_mul_eq {a c : Nat} (h : a * c < 65536) : u16 (a * u16 c) = a * c := by
  match a with
  | 0 => simp [u16]
  | Nat.succ n =>
    have hc : c < 65536 := lt_of_le_of_lt (Nat.le_mul_of_pos_left c (Nat.succ_pos n)) h
    rw [u16_eq_of_lt hc, u16_eq_of_lt h]

/-! ## Claim theorems -/

/-- C3: `set_viewport` resolves `Some requested` by collapsing any request at
or past `physical_top` to "live" (`none`) and clamping any other request up
to `scrollback_top`, so the stored viewport is the resolved value. -/
theorem c3_set_viewport_resolution (st : PaneState) (requested : Int)
    (dims : RenderableDimensions) :
    (set_viewport st (some requested) dims).state.viewport =
      if requested ≥ dims.physical_top then none
      else some (max requested dims.scrollback_top) := by
  unfold set_viewport resolve_position
  by_cases h :
      (if requested ≥ dims.physical_top then none
        else some (max requested dims.scrollback_top)) = st.viewport
  · simp [h]
  · simp [h]

/-- C8: `set_viewport` is idempotent on effects: when the requested position
resolves to the currently stored viewport, the state is unchanged and no
`viewport_changed` notification and no invalidate is produced. -/
theorem c8_set_viewport_noop (st : PaneState) (position : Option Int)
    (dims : RenderableDimensions)
    (h : resolve_position position dims = st.viewport) :
    set_viewport st position dims =
      { state := st, notifications := [], invalidates := 0 } := by
  unfold set_viewport
  simp [h]

/-- Witness for C8 at a concrete input: viewport already at row 3,
requesting row 3 again resolves to row 3 and is a complete no-op. -/
theorem c8_set_viewport_noop_witness :
    set_viewport { viewport := some 3, overlay := none } (some 3)
        { physical_top := 10, scrollback_top := 0, viewport_rows := 4 } =
      { state := { viewport := some 3, overlay := none },
        notifications := [], invalidates := 0 } :=
  c8_set_viewport_noop { viewport := some 3, overlay := none } (some 3)
    { physical_top := 10, scrollback_top := 0, viewport_rows := 4 } (by decide)

/-- C5 counterexample: with viewport at row 5 and an active search overlay,
the `set_viewport(pane, None)` call the claim describes notifies the overlay
and requests a repaint, while `scroll_to_bottom` writes the viewport field
directly and produces neither effect — they are not equivalent. -/
theorem c5_scroll_to_bottom_cex :
    scroll_to_bottom
        { viewport := some 5, overlay := some { pane_id := 7, kind := .search } } ≠
      set_viewport
        { viewport := some 5, overlay := some { pane_id := 7, kind := .search } }
        none { physical_top := 10, scrollback_top := 0, viewport_rows := 4 } := by
  decide

/-- C5 amended: `scroll_by_line(n)` and `scroll_by_page(n)` perform exactly
the `set_viewport` call the claim describes plus one additional unconditional
repaint request; `scroll_to_bottom` produces the same final pane state as
`set_viewport(pane, None)` but issues no overlay notification and no repaint
request. -/
theorem c5_scroll_helpers_vs_set_viewport :
    (∀ (st : PaneState) (dims : RenderableDimensions),
      (scroll_to_bottom st).state = (set_viewport st none dims).state ∧
      (scroll_to_bottom st).notifications = [] ∧
      (scroll_to_bottom st).invalidates = 0) ∧
    (∀ (st : PaneState) (amount : Int) (dims : RenderableDimensions),
      (scroll_by_line st amount dims).state =
        (set_viewport st
          (some (saturating_add ((get_viewport st).getD dims.physical_top) amount))
          dims).state ∧
      (scroll_by_line st amount dims).notifications =
        (set_viewport st
          (some (saturating_add ((get_viewport st).getD dims.physical_top) amount))
          dims).notifications ∧
      (scroll_by_line st amount dims).invalidates =
        (set_viewport st
          (some (saturating_add ((get_viewport st).getD dims.physical_top) amount))
          dims).invalidates + 1) ∧
    (∀ (st : PaneState) (amount : Int) (dims : RenderableDimensions),
      (scroll_by_page st amount dims).state =
        (set_viewport st
          (some (saturating_add ((get_viewport st).getD dims.physical_top)
            (amount * (dims.viewport_rows : Int)))) dims).state ∧
      (scroll_by_page st amount dims).notifications =
        (set_viewport st
          (some (saturating_add ((get_viewport st).getD dims.physical_top)
            (amount * (dims.viewport_rows : Int)))) dims).notifications ∧
      (scroll_by_page st amount dims).invalidates =
        (set_viewport st
          (some (saturating_add ((get_viewport st).getD dims.physical_top)
            (amount * (dims.viewport_rows : Int)))) dims).invalidates + 1) := by
  refine ⟨?_, fun st amount dims => ⟨rfl, rfl, rfl⟩,
    fun st amount dims => ⟨rfl, rfl, rfl⟩⟩
  intro st dims
  refine ⟨?_, rfl, rfl⟩
  obtain ⟨v, ov⟩ := st
  unfold scroll_to_bottom set_viewport resolve_position
  cases v with
  | none => simp
  | some x => simp

/-! ### Overlay registry lemmas -/

theorem dropLast_sublist_self {α : Type} : ∀ (l : List α), l.dropLast.Sublist l
  | [] => List.Sublist.refl _
  | [_] => by simp
  | a :: b :: l => by
    rw [List.dropLast_cons₂]
    exact List.Sublist.cons₂ a (dropLast_sublist_self (b :: l))

theorem assign_overlay_fst (ts : TabState) (mux : MuxLog) (o : OverlayPane) :
    (assign_overlay ts mux o).1 = { overlay := some o } := by
  cases h : ts.overlay <;> simp [assign_overlay, h]

theorem assign_overlay_snd (ts : TabState) (mux : MuxLog) (o : OverlayPane) :
    (assign_overlay ts mux o).2.removed_panes =
      mux.removed_panes ++ installed_tab ts := by
  cases h : ts.overlay <;> simp [assign_overlay, installed_tab, h]

theorem assign_overlay_for_pane_fst (ps : PaneState) (mux : MuxLog) (o : OverlayPane) :
    (assign_overlay_for_pane ps mux o).1 = { ps with overlay := some o } := by
  cases h : ps.overlay <;> simp [assign_overlay_for_pane, h]

theorem assign_overlay_for_pane_snd (ps : PaneState) (mux : MuxLog) (o : OverlayPane) :
    (assign_overlay_for_pane ps mux o).2.removed_panes =
      mux.removed_panes ++ installed_pane ps := by
  cases h : ps.overlay <;> simp [assign_overlay_for_pane, installed_pane, h]

/-- Characterization of a nonempty run of `assign_overlay` calls: the last
assigned overlay is installed, and the multiplexer was told to remove the
initially installed overlay (if any) followed by every assigned overlay
except the last, in order. -/
theorem assign_overlay_seq_char :
    ∀ (os : List OverlayPane) (ts : TabState) (mux : MuxLog), os ≠ [] →
      (assign_overlay_seq ts mux os).1.overlay = os.getLast? ∧
      (assign_overlay_seq ts mux os).2.removed_panes =
        mux.removed_panes ++ installed_tab ts ++ os.dropLast.map OverlayPane.pane_id
  | [], _, _, h => absurd rfl h
  | [o], ts, mux, _ => by
    simp [assign_overlay_seq, assign_overlay_fst, assign_overlay_snd]
  | o :: o2 :: os2, ts, mux, _ => by
    have ih := assign_overlay_seq_char (o2 :: os2) (assign_overlay ts mux o).1
      (assign_overlay ts mux o).2 (by simp)
    have hstep : assign_overlay_seq ts mux (o :: o2 :: os2) =
        assign_overlay_seq (assign_overlay ts mux o).1
          (assign_overlay ts mux o).2 (o2 :: os2) := rfl
    rw [hstep, ih.1, ih.2, assign_overlay_fst, assign_overlay_snd,
      List.getLast?_cons_cons, List.dropLast_cons₂]
    simp [installed_tab]

/-- Same characterization for `assign_overlay_for_pane` runs on one pane id. -/
theorem assign_overlay_for_pane_seq_char :
    ∀ (os : List OverlayPane) (ps : PaneState) (mux : MuxLog), os ≠ [] →
      (assign_overlay_for_pane_seq ps mux os).1.overlay = os.getLast? ∧
      (assign_overlay_for_pane_seq ps mux os).2.removed_panes =
        mux.removed_panes ++ installed_pane ps ++ os.dropLast.map OverlayPane.pane_id
  | [], _, _, h => absurd rfl h
  | [o], ps, mux, _ => by
    simp [assign_overlay_for_pane_seq, assign_overlay_for_pane_fst,
      assign_overlay_for_pane_snd]
  | o :: o2 :: os2, ps, mux, _ => by
    have ih := assign_overlay_for_pane_seq_char (o2 :: os2)
      (assign_overlay_for_pane ps mux o).1 (assign_overlay_for_pane ps mux o).2
      (by simp)
    have hstep : assign_overlay_for_pane_seq ps mux (o :: o2 :: os2) =
        assign_overlay_for_pane_seq (assign_overlay_for_pane ps mux o).1
          (assign_overlay_for_pane ps mux o).2 (o2 :: os2) := rfl
    rw [hstep, ih.1, ih.2, assign_overlay_for_pane_fst, assign_overlay_for_pane_snd,
      List.getLast?_cons_cons, List.dropLast_cons₂]
    simp [installed_pane]

/-- Each replaced overlay id occurs exactly once in the release log when the
assigned overlays have pairwise distinct pane ids. -/
theorem dropLast_map_count_eq_one (os : List OverlayPane)
    (hnd : (os.map OverlayPane.pane_id).Nodup) (pid : Nat)
    (hmem : pid ∈ os.dropLast.map OverlayPane.pane_id) :
    (os.dropLast.map OverlayPane.pane_id).count pid = 1 :=
  List.count_eq_one_of_mem
    (List.Nodup.sublist (List.Sublist.map OverlayPane.pane_id
      (dropLast_sublist_self os)) hnd) hmem

/-- C1: starting from the default (empty) slot, after any nonempty sequence
of `assign_overlay` calls on one tab id — and likewise of
`assign_overlay_for_pane` calls on one pane id — exactly one overlay (the
last assigned) is installed, and the overlays released to the multiplexer
via `remove_pane` are exactly the replaced ones, in order; when the assigned
overlay pane ids are pairwise distinct, each replaced overlay is released
exactly once (never zero times, never twice).  Every prefix of such a
sequence is itself such a sequence, so this holds after each call. -/
theorem c1_assign_overlay_exactly_once (os : List OverlayPane) (h : os ≠ []) :
    ((assign_overlay_seq TabState.default { removed_panes := [] } os).1.overlay
        = os.getLast? ∧
      (assign_overlay_seq TabState.default { removed_panes := [] } os).1.overlay.isSome ∧
      (assign_overlay_seq TabState.default { removed_panes := [] } os).2.removed_panes
        = os.dropLast.map OverlayPane.pane_id ∧
      ((os.map OverlayPane.pane_id).Nodup →
        ∀ pid ∈ os.dropLast.map OverlayPane.pane_id,
          ((assign_overlay_seq TabState.default { removed_panes := [] }
            os).2.removed_panes).count pid = 1)) ∧
    ((assign_overlay_for_pane_seq PaneState.default { removed_panes := [] } os).1.overlay
        = os.getLast? ∧
      (assign_overlay_for_pane_seq PaneState.default
        { removed_panes := [] } os).1.overlay.isSome ∧
      (assign_overlay_for_pane_seq PaneState.default { removed_panes := [] }
        os).2.removed_panes = os.dropLast.map OverlayPane.pane_id ∧
      ((os.map OverlayPane.pane_id).Nodup →
        ∀ pid ∈ os.dropLast.map OverlayPane.pane_id,
          ((assign_overlay_for_pane_seq PaneState.default { removed_panes := [] }
            os).2.removed_panes).count pid = 1)) := by
  simp only [TabState.default, PaneState.default]
  obtain ⟨hta, htb⟩ := assign_overlay_seq_char os { overlay := none }
    { removed_panes := [] } h
  obtain ⟨hpa, hpb⟩ := assign_overlay_for_pane_seq_char os
    { viewport := none, overlay := none } { removed_panes := [] } h
  simp only [installed_tab, installed_pane, List.nil_append] at htb hpb
  refine ⟨⟨hta, ?_, htb, ?_⟩, ⟨hpa, ?_, hpb, ?_⟩⟩
  · rw [hta, List.getLast?_isSome]
    exact h
  · intro hnd pid hmem
    rw [htb]
    exact dropLast_map_count_eq_one os hnd pid hmem
  · rw [hpa, List.getLast?_isSome]
    exact h
  · intro hnd pid hmem
    rw [hpb]
    exact dropLast_map_count_eq_one os hnd pid hmem

/-- Witness for C1 at a concrete input: three assignments with pane ids 1, 2,
3; pane 1 was replaced and appears exactly once in the release log. -/
theorem c1_assign_overlay_exactly_once_witness :
    ((assign_overlay_seq TabState.default { removed_panes := [] }
      [⟨1, .plain⟩, ⟨2, .plain⟩, ⟨3, .search⟩]).2.removed_panes).count 1 = 1 :=
  (c1_assign_overlay_exactly_once
      [⟨1, .plain⟩, ⟨2, .plain⟩, ⟨3, .search⟩] (by decide)).1.2.2.2
    (by decide) 1 (by decide)

/-- C6 counterexample: beginning a Line-mode selection at the raw coordinate
(column 5, row 3) stores that raw coordinate as the anchor, while the
resolved line range's snapped start is column 0 of row 3 — so the stored
anchor is not the snapped start of the resolved range. -/
theorem c6_line_anchor_cex :
    (select_text_at_mouse_cursor .Line { x := 5, y := 3 } line_around line_around
        { start := none, range := none }).1.start = some { x := 5, y := 3 } ∧
    (select_text_at_mouse_cursor .Line { x := 5, y := 3 } line_around line_around
        { start := none, range := none }).1.range =
      some (line_around { x := 5, y := 3 }) ∧
    (line_around { x := 5, y := 3 }).start ≠ { x := 5, y := 3 } := by
  refine ⟨rfl, rfl, ?_⟩
  intro hc
  have : (0 : Nat) = 5 := congrArg SelectionCoordinate.x hc
  exact absurd this (by decide)

/-- C6 amended: beginning a selection in Word or SemanticZone mode stores as
the anchor the snapped start of the unit-aligned range resolved around the
raw coordinate; in Line mode the stored anchor is the raw coordinate itself
(its row equals the resolved line range's row, but its column is not
snapped), while the resolved range is still the snapped full-line range. -/
theorem c6_begin_selection_anchor (coord : SelectionCoordinate)
    (word_around zone_around : SelectionCoordinate → SelectionRange)
    (sel : Selection) :
    ((select_text_at_mouse_cursor .Word coord word_around zone_around sel).1.start =
        some (word_around coord).start ∧
      (select_text_at_mouse_cursor .Word coord word_around zone_around sel).1.range =
        some (word_around coord)) ∧
    ((select_text_at_mouse_cursor .SemanticZone coord word_around zone_around sel).1.start =
        some (zone_around coord).start ∧
      (select_text_at_mouse_cursor .SemanticZone coord word_around zone_around sel).1.range =
        some (zone_around coord)) ∧
    ((select_text_at_mouse_cursor .Line coord word_around zone_around sel).1.start =
        some coord ∧
      (select_text_at_mouse_cursor .Line coord word_around zone_around sel).1.range =
        some (line_around coord) ∧
      (line_around coord).start.y = coord.y) :=
  ⟨⟨rfl, rfl⟩, ⟨rfl, rfl⟩, rfl, rfl, rfl⟩

/-- C4: during a maintenance tick, a rendered pane with dirty rows in the
visible range keeps its selection untouched when it is the search or the
copy-mode overlay; a pane of any other kind has its selection cleared
(both anchor and range) exactly when some dirty row lies in the selection's
row span. -/
theorem c4_dirty_selection_rule (st : TickState) (p : RenderedPane)
    (hmem : p ∈ st.panes) (hdirty : p.dirty ≠ []) :
    pane_tick p ∈ (periodic_window_maintenance st).panes ∧
    ((p.kind = .search ∨ p.kind = .copy) → pane_tick p = p) ∧
    (p.kind = .plain →
      ∀ r, p.selection.range = some r →
        ((∃ row ∈ SelectionRange.rows r, row ∈ p.dirty) →
          (pane_tick p).selection.range = none ∧
            (pane_tick p).selection.start = none) ∧
        ((¬ ∃ row ∈ SelectionRange.rows r, row ∈ p.dirty) →
          pane_tick p = p)) := by
  have hne : ¬ st.panes.isEmpty := by
    cases hp : st.panes with
    | nil => rw [hp] at hmem; cases hmem
    | cons a l => simp [hp]
  refine ⟨?_, ?_, ?_⟩
  · unfold periodic_window_maintenance
    simp [hne]
    exact ⟨p, hmem, rfl⟩
  · intro hk
    unfold pane_tick
    simp [List.isEmpty_iff, hdirty, hk]
  · intro hk r hr
    have hkor : ¬ (p.kind = .search ∨ p.kind = .copy) := by
      rw [hk]; rintro (hc | hc) <;> cases hc
    constructor
    · intro hex
      have hany : (SelectionRange.rows r).any (fun row => decide (row ∈ p.dirty)) = true := by
        rw [List.any_eq_true]
        obtain ⟨row, hrow, hrd⟩ := hex
        exact ⟨row, hrow, by simpa using hrd⟩
      unfold pane_tick
      simp [List.isEmpty_iff, hdirty, hkor, hr, hany]
    · intro hex
      have hany : (SelectionRange.rows r).any (fun row => decide (row ∈ p.dirty)) = false := by
        rw [Bool.eq_false_iff]
        intro hc
        rw [List.any_eq_true] at hc
        obtain ⟨row, hrow, hrd⟩ := hc
        exact hex ⟨row, hrow, by simpa using hrd⟩
      unfold pane_tick
      simp [List.isEmpty_iff, hdirty, hkor, hr, hany]

/-- Witness for C4 at a concrete input: a plain pane whose dirty row 2 lies
inside the selection's row span loses its selection during the tick. -/
theorem c4_dirty_selection_rule_witness :
    (pane_tick sample_dirty_pane).selection.range = none :=
  ((c4_dirty_selection_rule sample_tick sample_dirty_pane (by decide)
        (by decide)).2.2 rfl
      { start := { x := 1, y := 1 }, finish := { x := 4, y := 3 } } rfl).1
    (by decide) |>.1

/-- C9 counterexample: a tick in which the config generation changed and a
pane has dirty rows issues two invalidate requests — one directly from
`config_was_reloaded` and one from the consolidated end-of-tick flag — so
"never more than one invalidate per tick" fails on the code when the
config-reload check is counted among the tick's steps. -/
theorem c9_two_invalidates_cex :
    1 < (periodic_window_maintenance sample_reload_tick).invalidates := by
  decide

/-- C9 amended: in a tick where the config generation did not change, the
blink, dirty-line, and multiplexer invalidated-flag steps are consolidated
into one flag and issue at most one invalidate — exactly one iff some step
marked for repaint, the window handle is present, and there are panes to
render.  `config_was_reloaded` issues its own invalidates directly, outside
this flag, so a reload tick can issue more than one. -/
theorem c9_single_invalidate_without_reload (st : TickState)
    (h : st.config_gen_changed = false) :
    (periodic_window_maintenance st).invalidates =
      (if needs_invalidate st && st.window_present && !st.panes.isEmpty
        then 1 else 0) ∧
    (periodic_window_maintenance st).invalidates ≤ 1 := by
  have key : (periodic_window_maintenance st).invalidates =
      (if needs_invalidate st && st.window_present && !st.panes.isEmpty
        then 1 else 0) := by
    unfold periodic_window_maintenance
    by_cases he : st.panes.isEmpty <;> simp [he, reload_invalidates, h]
  refine ⟨key, ?_⟩
  rw [key]
  split <;> decide

/-- Witness for C9 at a concrete input: the sample tick (no reload pending,
one dirty pane) issues at most one invalidate. -/
theorem c9_single_invalidate_witness :
    (periodic_window_maintenance sample_tick).invalidates ≤ 1 :=
  (c9_single_invalidate_without_reload sample_tick rfl).2

/-- C10: a resize event reporting zero pixel width or zero pixel height is a
complete no-op: the window state is returned unchanged, no terminal size is
propagated to any tab, and no speculative window resize is requested. -/
theorem c10_zero_resize_noop (st : GeomState) (dimensions : Dimensions)
    (new_metrics : RenderMetrics) (advise_ok : Bool)
    (h : dimensions.pixel_width = 0 ∨ dimensions.pixel_height = 0) :
    resize st dimensions new_metrics advise_ok =
      { state := st, tab_resize := none, set_inner_size := none } := by
  unfold resize
  rcases h with h | h <;> simp [h]

/-- Witness for C10 at a concrete input: a 0x500 resize event leaves the
sample window untouched. -/
theorem c10_zero_resize_noop_witness :
    resize sample_geom { pixel_width := 0, pixel_height := 500, dpi := 96 }
        { cell_width := 8, cell_height := 16 } true =
      { state := sample_geom, tab_resize := none, set_inner_size := none } :=
  c10_zero_resize_noop sample_geom
    { pixel_width := 0, pixel_height := 500, dpi := 96 }
    { cell_width := 8, cell_height := 16 } true (Or.inl rfl)

/-- C2 counterexample: with the render surface rejecting a 400x300 resize,
the stored pixel dimensions and terminal size are indeed rolled back, yet
the freshly computed 50x18 terminal size — different from the stored
100x37 — is still pushed to every tab via `tab.resize`, contradicting the
claim that no terminal-size change is propagated. -/
theorem c2_tab_resize_propagated_cex :
    (apply_dimensions sample_geom
        { pixel_width := 400, pixel_height := 300, dpi := 96 }
        none false).state.terminal_size = sample_geom.terminal_size ∧
    (apply_dimensions sample_geom
        { pixel_width := 400, pixel_height := 300, dpi := 96 }
        none false).tab_resize =
      { rows := 18, cols := 50, pixel_width := 400, pixel_height := 300 } ∧
    ({ rows := 18, cols := 50, pixel_width := 400, pixel_height := 300 } : PtySize) ≠
      sample_geom.terminal_size := by
  decide

/-- C2 amended: when the render surface rejects the new pixel size, the
stored pixel dimensions are rolled back, the stored terminal size is left
unchanged (the whole window state is exactly as before), and the speculative
inner-window resize is cancelled — but the newly computed terminal size is
still propagated to every tab, exactly as in the success case. -/
theorem c2_advise_failure_rollback (st : GeomState) (dimensions : Dimensions)
    (scale_changed_cells : Option RowsAndCols)
    (h : st.render_state_present = true) :
    (apply_dimensions st dimensions scale_changed_cells false).state = st ∧
    (apply_dimensions st dimensions scale_changed_cells false).set_inner_size = none ∧
    (apply_dimensions st dimensions scale_changed_cells false).tab_resize =
      (apply_dimensions st dimensions scale_changed_cells true).tab_resize := by
  obtain ⟨d0, t0, m0, s0, c0, r0⟩ := st
  simp only at h
  subst h
  cases scale_changed_cells <;> simp [apply_dimensions]

/-- Witness for C2 at a concrete input: a rejected 400x300 resize of the
sample window leaves its state exactly as before. -/
theorem c2_advise_failure_rollback_witness :
    (apply_dimensions sample_geom
        { pixel_width := 400, pixel_height := 300, dpi := 96 }
        none false).state = sample_geom :=
  (c2_advise_failure_rollback sample_geom
    { pixel_width := 400, pixel_height := 300, dpi := 96 } none rfl).1

/-! ### Geometry round trip (C7) -/

/-- Under no-overflow side conditions, the scale-preserving branch derives
exactly `cols·cellWidth + left + effectiveRight` horizontal and
`(rows + tabBar)·cellHeight + top + bottom` vertical pixels. -/
theorem scale_size_dims_pixel (st : GeomState) (d : Dimensions) (rows cols : Nat)
    (hch : 0 < st.render_metrics.cell_height)
    (hcw : 0 < st.render_metrics.cell_width)
    (hfitH : (rows + tab_bar_rows st) * st.render_metrics.cell_height
      + st.config.padding_top + st.config.padding_bottom < 65536)
    (hfitW : cols * st.render_metrics.cell_width + st.config.padding_left
      + effective_right_padding st.config st.render_metrics < 65536) :
    (scale_size_dims st d { rows := rows, cols := cols }).2 =
      { pixel_width := cols * st.render_metrics.cell_width + st.config.padding_left
          + effective_right_padding st.config st.render_metrics,
        pixel_height := (rows + tab_bar_rows st) * st.render_metrics.cell_height
          + st.config.padding_top + st.config.padding_bottom,
        dpi := d.dpi } := by
  have h1 : (rows + tab_bar_rows st) * st.render_metrics.cell_height < 65536 := by
    omega
  have h2 : rows + tab_bar_rows st < 65536 := by
    have := Nat.le_mul_of_pos_right (rows + tab_bar_rows st) hch
    omega
  have h3 : st.config.padding_top + st.config.padding_bottom < 65536 := by omega
  have h4 : cols * st.render_metrics.cell_width < 65536 := by omega
  have h5 : cols < 65536 := by
    have := Nat.le_mul_of_pos_right cols hcw
    omega
  have h6 : st.config.padding_left
      + effective_right_padding st.config st.render_metrics < 65536 := by omega
  simp only [scale_size_dims]
  rw [u16_eq_of_lt (show rows < 65536 by omega), u16_eq_of_lt h2,
    u16_mul_eq h1, u16_eq_of_lt h3,
    u16_eq_of_lt (show (rows + tab_bar_rows st) * st.render_metrics.cell_height
      + (st.config.padding_top + st.config.padding_bottom) < 65536 by omega),
    u16_eq_of_lt h5, u16_mul_eq h4, u16_eq_of_lt h6,
    u16_eq_of_lt (show cols * st.render_metrics.cell_width
      + (st.config.padding_left
        + effective_right_padding st.config st.render_metrics) < 65536 by omega)]
  simp only [Dimensions.mk.injEq]
  exact ⟨by omega, by omega, trivial⟩

/-- Under the same side conditions, the window-size-driven branch applied to
exactly the derived pixel dimensions recovers the original rows and cols. -/
theorem window_size_dims_round (st : GeomState) (d : Dimensions) (rows cols : Nat)
    (hch : 0 < st.render_metrics.cell_height)
    (hcw : 0 < st.render_metrics.cell_width)
    (hfitH : (rows + tab_bar_rows st) * st.render_metrics.cell_height
      + st.config.padding_top + st.config.padding_bottom < 65536)
    (hfitW : cols * st.render_metrics.cell_width + st.config.padding_left
      + effective_right_padding st.config st.render_metrics < 65536)
    (hw : d.pixel_width = cols * st.render_metrics.cell_width
      + st.config.padding_left + effective_right_padding st.config st.render_metrics)
    (hh : d.pixel_height = (rows + tab_bar_rows st) * st.render_metrics.cell_height
      + st.config.padding_top + st.config.padding_bottom) :
    (window_size_dims st d).1.rows = rows ∧
    (window_size_dims st d).1.cols = cols := by
  have h2 : rows + tab_bar_rows st < 65536 := by
    have := Nat.le_mul_of_pos_right (rows + tab_bar_rows st) hch
    omega
  have h3 : st.config.padding_top + st.config.padding_bottom < 65536 := by omega
  have h5 : cols < 65536 := by
    have := Nat.le_mul_of_pos_right cols hcw
    omega
  have h6 : st.config.padding_left
      + effective_right_padding st.config st.render_metrics < 65536 := by omega
  simp only [window_size_dims]
  rw [hw, hh, u16_eq_of_lt h6, u16_eq_of_lt h3]
  have havailh : (rows + tab_bar_rows st) * st.render_metrics.cell_height
      + st.config.padding_top + st.config.padding_bottom
      - (st.config.padding_top + st.config.padding_bottom)
      = (rows + tab_bar_rows st) * st.render_metrics.cell_height := by omega
  have havailw : cols * st.render_metrics.cell_width + st.config.padding_left
      + effective_right_padding st.config st.render_metrics
      - (st.config.padding_left + effective_right_padding st.config st.render_metrics)
      = cols * st.render_metrics.cell_width := by omega
  rw [havailh, havailw, Nat.mul_div_cancel _ hch, Nat.mul_div_cancel _ hcw,
    Nat.add_sub_cancel]
  exact ⟨u16_eq_of_lt (by omega), u16_eq_of_lt h5⟩

/-- Unfolding of `apply_dimensions` in the successful scale-preserving case. -/
theorem apply_dimensions_scale_true (st : GeomState) (d : Dimensions)
    (cell_dims : RowsAndCols) (h : st.render_state_present = true) :
    apply_dimensions st d (some cell_dims) true =
      { state :=
          { st with dimensions := d,
                    terminal_size := (scale_size_dims st d cell_dims).1 },
        tab_resize := (scale_size_dims st d cell_dims).1,
        set_inner_size := some ((scale_size_dims st d cell_dims).2.pixel_width,
          (scale_size_dims st d cell_dims).2.pixel_height) } := by
  obtain ⟨d0, t0, m0, s0, c0, r0⟩ := st
  simp only at h
  subst h
  rfl

/-- Unfolding of `apply_dimensions` in the successful window-size-driven
case. -/
theorem apply_dimensions_window_true (st : GeomState) (d : Dimensions)
    (h : st.render_state_present = true) :
    apply_dimensions st d none true =
      { state :=
          { st with dimensions := d,
                    terminal_size := (window_size_dims { st with dimensions := d } d).1 },
        tab_resize := (window_size_dims { st with dimensions := d } d).1,
        set_inner_size := none } := by
  obtain ⟨d0, t0, m0, s0, c0, r0⟩ := st
  simp only at h
  subst h
  rfl

/-- C7: applying the scale-preserving geometry mode (rows/cols held fixed,
window pixel dimensions derived), then applying the window-size-driven mode
at exactly the pixel dimensions just requested, yields the same terminal
rows and cols back — a fixpoint, not an oscillation — provided the cell
pixel sizes are positive and the derived pixel dimensions fit in the
source's 16-bit arithmetic. -/
theorem c7_geometry_round_trip (st : GeomState) (d : Dimensions)
    (rows cols w h : Nat)
    (hch : 0 < st.render_metrics.cell_height)
    (hcw : 0 < st.render_metrics.cell_width)
    (hrender : st.render_state_present = true)
    (hfitH : (rows + tab_bar_rows st) * st.render_metrics.cell_height
      + st.config.padding_top + st.config.padding_bottom < 65536)
    (hfitW : cols * st.render_metrics.cell_width + st.config.padding_left
      + effective_right_padding st.config st.render_metrics < 65536)
    (hinner : (apply_dimensions st d (some { rows := rows, cols := cols })
      true).set_inner_size = some (w, h)) :
    (apply_dimensions
        (apply_dimensions st d (some { rows := rows, cols := cols }) true).state
        { pixel_width := w, pixel_height := h, dpi := d.dpi }
        none true).state.terminal_size.rows = rows ∧
    (apply_dimensions
        (apply_dimensions st d (some { rows := rows, cols := cols }) true).state
        { pixel_width := w, pixel_height := h, dpi := d.dpi }
        none true).state.terminal_size.cols = cols := by
  rw [apply_dimensions_scale_true st d _ hrender] at hinner ⊢
  rw [scale_size_dims_pixel st d rows cols hch hcw hfitH hfitW] at hinner
  simp only [Option.some.injEq, Prod.mk.injEq] at hinner
  obtain ⟨hwv, hhv⟩ := hinner
  dsimp only
  rw [apply_dimensions_window_true _ _ (show _ = true by exact hrender)]
  dsimp only
  exact window_size_dims_round _ _ rows cols (by exact hch) (by exact hcw)
    (by exact hfitH) (by exact hfitW) (by exact hwv.symm) (by exact hhv.symm)

/-- Witness for C7 at a concrete input: holding the sample window's 37x100
terminal fixed derives 800x592 pixels, and re-running the window-size-driven
mode at 800x592 yields 37 rows again. -/
theorem c7_geometry_round_trip_witness :
    (apply_dimensions
        (apply_dimensions sample_geom
          { pixel_width := 640, pixel_height := 480, dpi := 96 }
          (some { rows := 37, cols := 100 }) true).state
        { pixel_width := 800, pixel_height := 592, dpi := 96 }
        none true).state.terminal_size.rows = 37 :=
  (c7_geometry_round_trip sample_geom
    { pixel_width := 640, pixel_height := 480, dpi := 96 }
    37 100 800 592 (by decide) (by decide) rfl (by decide) (by decide)
    (by decide)).1

end TermWindow
